import Mathlib

/-!
Verification of the NFL spread/totals pipeline (src/nfl_betting_full_auto.py).

The pipeline is four pure data transformations over pandas DataFrames:
fetch_pbp_data, calculate_epa, aggregate_net_epa and
generate_betting_recommendations.  We embed the DataFrames shallowly:

* A play-by-play frame is a list of rows together with one Boolean per
  column recording whether that column is present in the schema
  (calculate_epa inspects pbp_data.columns, so column presence must be
  first class).  A row stores a plain value for every column; the code
  only reads a column after establishing that it is present.
* Numeric cells are exact rationals.  A float cell that may be NaN
  (produced by the left merge in aggregate_net_epa for unmatched rows)
  is an Option rational, none standing for NaN; arithmetic, abs and
  comparisons on it follow IEEE/pandas semantics: NaN propagates
  through + and abs, and every ordered comparison with NaN is false.
* The upstream library call nfl.import_pbp_data is an external
  collaborator; fetch_pbp_data is parametrised by it and additionally
  returns the list of seasons it requested, so that the single-fallback
  behaviour (exactly one further request) is provable.
* pandas groupby emits one aggregate row per distinct key.  The code
  never depends on the (sorted) order in which pandas emits the groups,
  and none of the properties below mention that order, so the embedding
  lists the groups in first-occurrence order of their keys.
-/

/-- One play-by-play row.  The columns used by the pipeline: game
identifier, offensive team (posteam), defensive team (defteam), expected
points before the play (ep_before), expected points after the play (ep),
and the derived epa column written by calculate_epa.  A row carries a
value for every column; whether a column is actually present in the
frame is recorded in PbpFrame. -/
structure PlayRow where
  game_id : String
  posteam : String
  defteam : String
  ep_before : ℚ
  ep : ℚ
  epa : ℚ
  deriving DecidableEq

/-- A play-by-play DataFrame: per-column presence flags plus the rows.
pbp_data.empty holds exactly when there are no rows. -/
structure PbpFrame where
  hasGameId : Bool
  hasPosteam : Bool
  hasDefteam : Bool
  hasEpBefore : Bool
  hasEp : Bool
  hasEpa : Bool
  rows : List PlayRow
  deriving DecidableEq

/-- Fallback season constant (LATEST_AVAILABLE_SEASON = 2024). -/
def LATEST_AVAILABLE_SEASON : ℤ := 2024

/-- Placeholder efficiency constant (INITIAL_EPA = 0.0). -/
def INITIAL_EPA : ℚ := 0

/-- fetch_pbp_data.  The upstream library call nfl.import_pbp_data is
modelled by the function argument named upstream, which either returns a
frame or raises (Except.error).  The second component of the result is
the trace of seasons requested, in order.  Mirrors the source: the try
block requests the given season and raises on an empty result; the
except block requests LATEST_AVAILABLE_SEASON once and returns whatever
that second call produces (a raise inside the except block would
propagate, hence the unguarded upstream value there). -/
def fetch_pbp_data (upstream : ℤ → Except String PbpFrame) (season : ℤ) :
    Except String PbpFrame × List ℤ :=
  match upstream season with
  | Except.ok d =>
      if d.rows.isEmpty then
        (upstream LATEST_AVAILABLE_SEASON, [season, LATEST_AVAILABLE_SEASON])
      else
        (Except.ok d, [season])
  | Except.error _ =>
      (upstream LATEST_AVAILABLE_SEASON, [season, LATEST_AVAILABLE_SEASON])

/-- calculate_epa.  Branch 1: an empty frame (no rows) receives the four
columns epa/defteam/posteam/game_id by scalar assignment; in pandas a
scalar assignment to a zero-row frame creates the column without
creating any row, so the row list stays empty (the map below runs over
zero rows).  Branch 2: if the ep or ep_before column is missing, epa is
set to INITIAL_EPA on every row and each of defteam/posteam/game_id is
backfilled independently, only when missing.  Branch 3: epa = ep -
ep_before per row. -/
def calculate_epa (f : PbpFrame) : PbpFrame :=
  if f.rows.isEmpty then
    { f with
      hasEpa := true, hasDefteam := true, hasPosteam := true, hasGameId := true,
      rows := f.rows.map (fun r =>
        { r with epa := INITIAL_EPA, defteam := "DEF", posteam := "OFF", game_id := "MOCK" }) }
  else if !f.hasEp || !f.hasEpBefore then
    let f1 : PbpFrame :=
      { f with hasEpa := true, rows := f.rows.map (fun r => { r with epa := INITIAL_EPA }) }
    let f2 : PbpFrame :=
      if !f1.hasDefteam then
        { f1 with hasDefteam := true, rows := f1.rows.map (fun r => { r with defteam := "DEF" }) }
      else f1
    let f3 : PbpFrame :=
      if !f2.hasPosteam then
        { f2 with hasPosteam := true, rows := f2.rows.map (fun r => { r with posteam := "OFF" }) }
      else f2
    if !f3.hasGameId then
      { f3 with hasGameId := true, rows := f3.rows.map (fun r => { r with game_id := "MOCK" }) }
    else f3
  else
    { f with hasEpa := true,
             rows := f.rows.map (fun r => { r with epa := r.ep - r.ep_before }) }

/-- The groupby key of the offensive aggregation: (game_id, posteam). -/
def offKey (r : PlayRow) : String × String := (r.game_id, r.posteam)

/-- The groupby key of the defensive aggregation: (game_id, defteam). -/
def defKey (r : PlayRow) : String × String := (r.game_id, r.defteam)

/-- First-occurrence deduplication of keys, structural in the list so
that it evaluates inside the kernel; the accumulator holds the keys
already emitted. -/
def dedupAux (seen : List (String × String)) :
    List (String × String) → List (String × String)
  | [] => []
  | k :: ks => if k ∈ seen then dedupAux seen ks else k :: dedupAux (k :: seen) ks

/-- The distinct keys of a groupby, one per group.  pandas emits the
groups sorted by key; no property below depends on the order of the
groups, and the embedding lists them in first-occurrence order. -/
def groupKeys (key : PlayRow → String × String) (rows : List PlayRow) :
    List (String × String) :=
  dedupAux [] (rows.map key)

/-- The rows of the offensive group with key k. -/
def offGroup (rows : List PlayRow) (k : String × String) : List PlayRow :=
  rows.filter (fun r => decide (offKey r = k))

/-- The rows of the defensive group with key k. -/
def defGroup (rows : List PlayRow) (k : String × String) : List PlayRow :=
  rows.filter (fun r => decide (defKey r = k))

/-- Sum of the epa column over a list of rows. -/
def epaSum (rows : List PlayRow) : ℚ := (rows.map PlayRow.epa).sum

/-- One row of the off_epa table built in aggregate_net_epa. -/
structure OffAgg where
  game_id : String
  posteam : String
  off_total_epa : ℚ
  off_plays : ℕ
  off_epa_per_play : ℚ
  deriving DecidableEq

/-- One row of the def_epa table built in aggregate_net_epa. -/
structure DefAgg where
  game_id : String
  defteam : String
  def_total_epa : ℚ
  def_plays : ℕ
  def_epa_per_play : ℚ
  deriving DecidableEq

/-- The offensive aggregation: group by (game_id, posteam), sum and
count the epa column, and divide to get the per-play value. -/
def off_epa_table (rows : List PlayRow) : List OffAgg :=
  (groupKeys offKey rows).map (fun k =>
    { game_id := k.1, posteam := k.2,
      off_total_epa := epaSum (offGroup rows k),
      off_plays := (offGroup rows k).length,
      off_epa_per_play := epaSum (offGroup rows k) / ((offGroup rows k).length : ℚ) })

/-- The defensive aggregation: group by (game_id, defteam), sum and
count the epa column; the per-play value is sign inverted
(-def_total_epa / def_plays) because conceded efficiency is a cost to
the defense. -/
def def_epa_table (rows : List PlayRow) : List DefAgg :=
  (groupKeys defKey rows).map (fun k =>
    { game_id := k.1, defteam := k.2,
      def_total_epa := epaSum (defGroup rows k),
      def_plays := (defGroup rows k).length,
      def_epa_per_play := -epaSum (defGroup rows k) / ((defGroup rows k).length : ℚ) })

/-- One row of the net_epa table: the left merge of the offensive table
with the defensive table on (game_id, posteam) = (game_id, defteam).
def_epa_per_play and net_epa_per_play are Option rationals because the
left merge writes NaN (modelled as none) into unmatched rows and NaN
propagates through the addition. -/
structure NetRow where
  game_id : String
  posteam : String
  off_epa_per_play : ℚ
  def_epa_per_play : Option ℚ
  net_epa_per_play : Option ℚ
  deriving DecidableEq

/-- aggregate_net_epa: build the two aggregate tables, left merge them
on (game_id, posteam) = (game_id, defteam) and add
net_epa_per_play = off_epa_per_play + def_epa_per_play.  The defensive
keys are distinct (one row per group), so the left merge attaches to
each offensive row the unique matching defensive row, if any;
find? looks that row up.  When there is no match the merge leaves NaN
(none) in def_epa_per_play, and the addition propagates it into
net_epa_per_play.  The final column selection keeps game_id, posteam
and the three per-play values, which is exactly a NetRow. -/
def aggregate_net_epa (rows : List PlayRow) : List NetRow :=
  let offTable := off_epa_table rows
  let defTable := def_epa_table rows
  offTable.map (fun o =>
    let m := defTable.find? (fun d => decide (d.game_id = o.game_id ∧ d.defteam = o.posteam))
    let dv : Option ℚ := Option.map DefAgg.def_epa_per_play m
    { game_id := o.game_id, posteam := o.posteam,
      off_epa_per_play := o.off_epa_per_play,
      def_epa_per_play := dv,
      net_epa_per_play := Option.map (fun x => o.off_epa_per_play + x) dv })

/-- One recommendation row, in the column order of the final selection:
game_id, posteam, off_epa_per_play, def_epa_per_play, net_epa_per_play,
bet_favorite, confidence, bet_type. -/
structure RecRow where
  game_id : String
  posteam : String
  off_epa_per_play : ℚ
  def_epa_per_play : Option ℚ
  net_epa_per_play : Option ℚ
  bet_favorite : String
  confidence : Option ℚ
  bet_type : String
  deriving DecidableEq

/-- The comparison x > c on a float cell that may be NaN: every ordered
comparison with NaN is false, as in pandas. -/
def nanGt (x : Option ℚ) (c : ℚ) : Bool :=
  match x with
  | none => false
  | some v => decide (c < v)

/-- The two mock rows substituted by generate_betting_recommendations
when its input is empty (values as the literals in the source:
0.05, -0.02, 0.03, -0.01, 0.08, -0.03). -/
def mock_net_epa : List NetRow :=
  [ { game_id := "MOCK_1", posteam := "TeamA",
      off_epa_per_play := 5/100, def_epa_per_play := some (3/100),
      net_epa_per_play := some (8/100) },
    { game_id := "MOCK_1", posteam := "TeamB",
      off_epa_per_play := -2/100, def_epa_per_play := some (-1/100),
      net_epa_per_play := some (-3/100) } ]

/-- The per-row logic of generate_betting_recommendations: the three
column assignments (bet_favorite, confidence, bet_type) are row-wise
independent, so applying them in sequence to every row equals this one
map.  bet_favorite tests net_epa_per_play > 0 (false on NaN),
confidence is abs of net_epa_per_play (NaN propagates), bet_type tests
confidence > 0.05 (false on NaN). -/
def recommend_row (r : NetRow) : RecRow :=
  let conf : Option ℚ := Option.map (fun x => |x|) r.net_epa_per_play
  { game_id := r.game_id, posteam := r.posteam,
    off_epa_per_play := r.off_epa_per_play,
    def_epa_per_play := r.def_epa_per_play,
    net_epa_per_play := r.net_epa_per_play,
    bet_favorite := if nanGt r.net_epa_per_play 0 then "Bet" else "Avoid",
    confidence := conf,
    bet_type := if nanGt conf (5/100) then "Spread" else "No Bet" }

/-- generate_betting_recommendations: substitute the two mock rows when
the input is empty, then derive the three recommendation columns.  The
copy taken at entry is a frame-effect concern; it is modelled
explicitly by generate_betting_recommendations_heap below. -/
def generate_betting_recommendations (net_epa : List NetRow) : List RecRow :=
  (if net_epa.isEmpty then mock_net_epa else net_epa).map recommend_row

/-- The output columns of generate_betting_recommendations, in the
order of the final selection in the source. -/
def recommendation_columns : List String :=
  ["game_id", "posteam", "off_epa_per_play", "def_epa_per_play",
   "net_epa_per_play", "bet_favorite", "confidence", "bet_type"]

/-- A DataFrame object on the Python heap: either a net-EPA frame (five
columns) or a recommendation frame (eight columns). -/
inductive DfVal where
  | netFrame (rows : List NetRow) : DfVal
  | recFrame (rows : List RecRow) : DfVal
  deriving DecidableEq

/-- A small heap of DataFrame objects, addressed by naturals, used to
make the copy-versus-alias distinction of the Python code expressible:
a mutation of one address leaves the others untouched. -/
abbrev Heap := List (ℕ × DfVal)

/-- Look an address up in the heap (first binding wins). -/
def heapGet : Heap → ℕ → Option DfVal
  | [], _ => none
  | p :: t, a => if p.1 = a then some p.2 else heapGet t a

/-- Overwrite the object stored at an address. -/
def heapSet (h : Heap) (a : ℕ) (v : DfVal) : Heap :=
  h.map (fun p => if p.1 = a then (a, v) else p)

/-- An address not yet used by the heap (strictly above every address
in it). -/
def freshAddr (h : Heap) : ℕ := (h.map Prod.fst).foldr max 0 + 1

/-- The rows of the net-EPA frame stored at an address (empty when the
address does not hold a net-EPA frame; the caller always passes one). -/
def heapNetRows (h : Heap) (a : ℕ) : List NetRow :=
  match heapGet h a with
  | some (DfVal.netFrame rows) => rows
  | _ => []

/-- generate_betting_recommendations with the Python object heap made
explicit.  The input frame lives at address a.  Line by line: df =
net_epa.copy() allocates a fresh object b with the same rows; when the
frame is empty, df = pd.DataFrame(...) rebinds df to another fresh
object holding the two mock rows; the three column assignments then
mutate the object df refers to (one heapSet, since the three writes
touch the same object and no other); the final column selection builds
the returned (new) frame.  The input object at a is never written. -/
def generate_betting_recommendations_heap (h : Heap) (a : ℕ) : Heap × List RecRow :=
  let net := heapNetRows h a
  let b := freshAddr h
  let h1 : Heap := (b, DfVal.netFrame net) :: h
  if net.isEmpty then
    let c := freshAddr h1
    let h2 : Heap := (c, DfVal.netFrame mock_net_epa) :: h1
    let recs := (heapNetRows h2 c).map recommend_row
    (heapSet h2 c (DfVal.recFrame recs), recs)
  else
    let recs := (heapNetRows h1 b).map recommend_row
    (heapSet h1 b (DfVal.recFrame recs), recs)

/-- The (game_id, posteam) key of a net row. -/
def netKey (r : NetRow) : String × String := (r.game_id, r.posteam)

/-- The projection of a recommendation row inspected by the end-to-end
scenario: defensive value, net value, decision, bet-type. -/
def recSummary (r : RecRow) : Option ℚ × Option ℚ × String × String :=
  (r.def_epa_per_play, r.net_epa_per_play, r.bet_favorite, r.bet_type)

/-! Helper lemmas about deduplication, grouping and the heap. -/

theorem mem_dedupAux (k : String × String) (seen l : List (String × String)) :
    k ∈ dedupAux seen l ↔ k ∈ l ∧ k ∉ seen := by
  induction l generalizing seen with
  | nil => simp [dedupAux]
  | cons x xs ih =>
    simp only [dedupAux]
    by_cases hx : x ∈ seen
    · rw [if_pos hx, ih]
      constructor
      · rintro ⟨hk, hks⟩
        exact ⟨List.mem_cons_of_mem _ hk, hks⟩
      · rintro ⟨hk, hks⟩
        rcases List.mem_cons.mp hk with rfl | hk
        · exact absurd hx hks
        · exact ⟨hk, hks⟩
    · rw [if_neg hx]
      constructor
      · intro hmem
        rcases List.mem_cons.mp hmem with rfl | hmem
        · exact ⟨List.mem_cons_self _ _, hx⟩
        · obtain ⟨hk, hks⟩ := (ih (x :: seen)).mp hmem
          exact ⟨List.mem_cons_of_mem _ hk,
            fun hs => hks (List.mem_cons_of_mem _ hs)⟩
      · rintro ⟨hk, hks⟩
        rcases List.mem_cons.mp hk with rfl | hk
        · exact List.mem_cons_self _ _
        · by_cases hkx : k = x
          · subst hkx
            exact List.mem_cons_self _ _
          · refine List.mem_cons_of_mem _ ((ih (x :: seen)).mpr ⟨hk, fun hs => ?_⟩)
            rcases List.mem_cons.mp hs with h1 | h1
            · exact hkx h1
            · exact hks h1

theorem nodup_dedupAux (seen l : List (String × String)) :
    (dedupAux seen l).Nodup := by
  induction l generalizing seen with
  | nil => simp [dedupAux]
  | cons x xs ih =>
    simp only [dedupAux]
    by_cases hx : x ∈ seen
    · rw [if_pos hx]
      exact ih seen
    · rw [if_neg hx]
      refine List.nodup_cons.mpr ⟨fun hmem => ?_, ih (x :: seen)⟩
      exact ((mem_dedupAux x (x :: seen) xs).mp hmem).2 (List.mem_cons_self _ _)

theorem mem_groupKeys (key : PlayRow → String × String) (rows : List PlayRow)
    (k : String × String) :
    k ∈ groupKeys key rows ↔ ∃ r ∈ rows, key r = k := by
  simp [groupKeys, mem_dedupAux, List.mem_map, eq_comm]

theorem length_pos_of_mem_groupKeys (key : PlayRow → String × String)
    (rows : List PlayRow) (k : String × String) (h : k ∈ groupKeys key rows) :
    0 < (rows.filter (fun r => decide (key r = k))).length := by
  obtain ⟨r, hr, hk⟩ := (mem_groupKeys key rows k).mp h
  have : r ∈ rows.filter (fun r => decide (key r = k)) :=
    List.mem_filter.mpr ⟨hr, decide_eq_true hk⟩
  exact List.length_pos_of_mem this

theorem mem_off_epa_table (rows : List PlayRow) (o : OffAgg)
    (h : o ∈ off_epa_table rows) :
    (o.game_id, o.posteam) ∈ groupKeys offKey rows ∧
    o.off_epa_per_play =
      epaSum (offGroup rows (o.game_id, o.posteam)) /
        ((offGroup rows (o.game_id, o.posteam)).length : ℚ) := by
  obtain ⟨k, hk, rfl⟩ := List.mem_map.mp h
  exact ⟨hk, rfl⟩

theorem mem_def_epa_table (rows : List PlayRow) (d : DefAgg)
    (h : d ∈ def_epa_table rows) :
    (d.game_id, d.defteam) ∈ groupKeys defKey rows ∧
    d.def_epa_per_play =
      -epaSum (defGroup rows (d.game_id, d.defteam)) /
        ((defGroup rows (d.game_id, d.defteam)).length : ℚ) := by
  obtain ⟨k, hk, rfl⟩ := List.mem_map.mp h
  exact ⟨hk, rfl⟩

/-! Claim C2: calculate_epa on an empty input. -/

/-- A concrete empty frame (no columns, no rows), as the upstream
library returns when a season has no data. -/
def c2_empty_frame : PbpFrame :=
  { hasGameId := false, hasPosteam := false, hasDefteam := false,
    hasEpBefore := false, hasEp := false, hasEpa := false, rows := [] }

/-- C2, counterexample: the claim states that calculate_epa returns a
collection containing exactly one synthesized row for every empty
input.  False: a pandas scalar assignment to a zero-row frame creates a
column and no row, so the output of calculate_epa on the empty frame
still has zero rows, not one. -/
theorem C2_calculate_epa_empty_counterexample :
    (calculate_epa c2_empty_frame).rows.length ≠ 1 := by
  simp [calculate_epa, c2_empty_frame]

/-- C2, amended: for every empty input collection, calculate_epa
returns a still empty (zero-row) collection in which the efficiency
column (with placeholder value 0.0) and the three key columns with
sentinel values OFF, DEF and MOCK have been made present in the schema;
no row is synthesized. -/
theorem C2_calculate_epa_empty_amended (f : PbpFrame) (h : f.rows = []) :
    (calculate_epa f).rows = [] ∧
    (calculate_epa f).hasEpa = true ∧
    (calculate_epa f).hasDefteam = true ∧
    (calculate_epa f).hasPosteam = true ∧
    (calculate_epa f).hasGameId = true := by
  simp [calculate_epa, h]

/-- C2, witness for the amended theorem at the concrete empty frame. -/
theorem C2_calculate_epa_empty_witness :
    c2_empty_frame.rows = [] ∧
    ((calculate_epa c2_empty_frame).rows = [] ∧
     (calculate_epa c2_empty_frame).hasEpa = true ∧
     (calculate_epa c2_empty_frame).hasDefteam = true ∧
     (calculate_epa c2_empty_frame).hasPosteam = true ∧
     (calculate_epa c2_empty_frame).hasGameId = true) :=
  ⟨rfl, C2_calculate_epa_empty_amended c2_empty_frame rfl⟩

/-! Claim C3: calculate_epa with both point-value columns present. -/

/-- C3: for every non-empty input in which both ep and ep_before are
present, calculate_epa attaches to every row the efficiency value
ep - ep_before, exactly, and the collection otherwise stays the same
(same rows in the same order with only the epa cell rewritten, and all
column-presence flags unchanged except that epa becomes present). -/
theorem C3_epa_formula (f : PbpFrame) (hne : f.rows ≠ [])
    (hep : f.hasEp = true) (hepb : f.hasEpBefore = true) :
    (calculate_epa f).rows =
      f.rows.map (fun r => { r with epa := r.ep - r.ep_before }) ∧
    (calculate_epa f).hasGameId = f.hasGameId ∧
    (calculate_epa f).hasPosteam = f.hasPosteam ∧
    (calculate_epa f).hasDefteam = f.hasDefteam ∧
    (calculate_epa f).hasEpBefore = f.hasEpBefore ∧
    (calculate_epa f).hasEp = f.hasEp ∧
    (calculate_epa f).hasEpa = true := by
  have h0 : f.rows.isEmpty = false := by
    simpa [List.isEmpty_iff] using hne
  simp [calculate_epa, h0, hep, hepb]

/-- A concrete play for the C3 witness. -/
def c3_play : PlayRow :=
  { game_id := "G3", posteam := "P", defteam := "D",
    ep_before := 1/2, ep := 2, epa := 0 }

/-- A concrete frame with both point-value columns present. -/
def c3_frame : PbpFrame :=
  { hasGameId := true, hasPosteam := true, hasDefteam := true,
    hasEpBefore := true, hasEp := true, hasEpa := false, rows := [c3_play] }

/-- C3, witness at the concrete one-row frame. -/
theorem C3_epa_formula_witness :
    c3_frame.rows ≠ [] ∧ c3_frame.hasEp = true ∧ c3_frame.hasEpBefore = true ∧
    ((calculate_epa c3_frame).rows =
       c3_frame.rows.map (fun r => { r with epa := r.ep - r.ep_before }) ∧
     (calculate_epa c3_frame).hasGameId = c3_frame.hasGameId ∧
     (calculate_epa c3_frame).hasPosteam = c3_frame.hasPosteam ∧
     (calculate_epa c3_frame).hasDefteam = c3_frame.hasDefteam ∧
     (calculate_epa c3_frame).hasEpBefore = c3_frame.hasEpBefore ∧
     (calculate_epa c3_frame).hasEp = c3_frame.hasEp ∧
     (calculate_epa c3_frame).hasEpa = true) :=
  ⟨by simp [c3_frame], rfl, rfl,
    C3_epa_formula c3_frame (by simp [c3_frame]) rfl rfl⟩

/-! Claim C4: calculate_epa with a missing point-value column. -/

/-- C4: for every non-empty input in which ep or ep_before is absent,
calculate_epa attaches the placeholder efficiency 0.0 to every row and
backfills each of defteam, posteam and game_id with its sentinel value
if and only if that particular column is missing, independently of the
others; afterwards all four columns are present, and the ep/ep_before
presence flags are unchanged.  The hypothesis that the input is
non-empty records that this branch runs only after the empty check. -/
theorem C4_missing_columns_backfill (f : PbpFrame) (hne : f.rows ≠ [])
    (hmiss : f.hasEp = false ∨ f.hasEpBefore = false) :
    (calculate_epa f).rows = f.rows.map (fun r =>
      { r with
        epa := INITIAL_EPA,
        defteam := if f.hasDefteam then r.defteam else "DEF",
        posteam := if f.hasPosteam then r.posteam else "OFF",
        game_id := if f.hasGameId then r.game_id else "MOCK" }) ∧
    (calculate_epa f).hasEpa = true ∧
    (calculate_epa f).hasDefteam = true ∧
    (calculate_epa f).hasPosteam = true ∧
    (calculate_epa f).hasGameId = true ∧
    (calculate_epa f).hasEpBefore = f.hasEpBefore ∧
    (calculate_epa f).hasEp = f.hasEp := by
  have h0 : f.rows.isEmpty = false := by
    simpa [List.isEmpty_iff] using hne
  have hcond : (!f.hasEp || !f.hasEpBefore) = true := by
    rcases hmiss with h | h <;> simp [h]
  cases hdef : f.hasDefteam <;> cases hpos : f.hasPosteam <;> cases hgid : f.hasGameId <;>
    simp [calculate_epa, h0, hcond, hdef, hpos, hgid, List.map_map, Function.comp]

/-- A concrete play for the C4 witness. -/
def c4_play : PlayRow :=
  { game_id := "G4", posteam := "X", defteam := "Y",
    ep_before := 1, ep := 2, epa := 5 }

/-- A concrete frame missing the ep column and the posteam column. -/
def c4_frame : PbpFrame :=
  { hasGameId := true, hasPosteam := false, hasDefteam := true,
    hasEpBefore := true, hasEp := false, hasEpa := false, rows := [c4_play] }

/-- C4, witness at the concrete frame missing ep and posteam. -/
theorem C4_missing_columns_backfill_witness :
    c4_frame.rows ≠ [] ∧ (c4_frame.hasEp = false ∨ c4_frame.hasEpBefore = false) ∧
    ((calculate_epa c4_frame).rows = c4_frame.rows.map (fun r =>
      { r with
        epa := INITIAL_EPA,
        defteam := if c4_frame.hasDefteam then r.defteam else "DEF",
        posteam := if c4_frame.hasPosteam then r.posteam else "OFF",
        game_id := if c4_frame.hasGameId then r.game_id else "MOCK" }) ∧
     (calculate_epa c4_frame).hasEpa = true ∧
     (calculate_epa c4_frame).hasDefteam = true ∧
     (calculate_epa c4_frame).hasPosteam = true ∧
     (calculate_epa c4_frame).hasGameId = true ∧
     (calculate_epa c4_frame).hasEpBefore = c4_frame.hasEpBefore ∧
     (calculate_epa c4_frame).hasEp = c4_frame.hasEp) :=
  ⟨by simp [c4_frame], Or.inl rfl,
    C4_missing_columns_backfill c4_frame (by simp [c4_frame]) (Or.inl rfl)⟩

/-! Claim C5: the aggregate means and the net sum. -/

/-- C5: for every input to aggregate_net_epa and every output row, the
offensive per-play value is the mean (sum over count) of the efficiency
values of the (game, offensive team) group of that row, which is
non-empty; whenever the defensive per-play value is present it is the
negation of the mean of the efficiency values conceded by the same
(game, team) group on defense, which is then non-empty; and the net
value is the offensive value plus the defensive value, with NaN (none)
propagating when the defensive value is absent.  Over exact rationals
the equalities are exact, which subsumes the 1e-9 tolerance. -/
theorem C5_aggregate_mean_net (rows : List PlayRow) (out : NetRow)
    (hout : out ∈ aggregate_net_epa rows) :
    (0 < (offGroup rows (out.game_id, out.posteam)).length ∧
     out.off_epa_per_play =
       epaSum (offGroup rows (out.game_id, out.posteam)) /
         ((offGroup rows (out.game_id, out.posteam)).length : ℚ)) ∧
    (∀ d, out.def_epa_per_play = some d →
      0 < (defGroup rows (out.game_id, out.posteam)).length ∧
      d = -(epaSum (defGroup rows (out.game_id, out.posteam)) /
            ((defGroup rows (out.game_id, out.posteam)).length : ℚ))) ∧
    out.net_epa_per_play =
      Option.map (fun x => out.off_epa_per_play + x) out.def_epa_per_play := by
  simp only [aggregate_net_epa] at hout
  obtain ⟨o, ho, rfl⟩ := List.mem_map.mp hout
  obtain ⟨hkey, hoff⟩ := mem_off_epa_table rows o ho
  refine ⟨⟨length_pos_of_mem_groupKeys offKey rows _ hkey, hoff⟩, ?_, rfl⟩
  intro d hd
  obtain ⟨mdef, hm, hdv⟩ := Option.map_eq_some'.mp hd
  have hpred := List.find?_some hm
  have hmem := List.mem_of_find?_eq_some hm
  obtain ⟨hg, ht⟩ := of_decide_eq_true hpred
  obtain ⟨hdkey, hdval⟩ := mem_def_epa_table rows mdef hmem
  rw [hg, ht] at hdkey hdval
  refine ⟨length_pos_of_mem_groupKeys defKey rows _ hdkey, ?_⟩
  rw [← hdv, hdval, neg_div]

/-- The two concrete plays of the C5 witness: team A on offense against
B, then team B on offense against A, in the same game. -/
def c5_play_1 : PlayRow :=
  { game_id := "G", posteam := "A", defteam := "B",
    ep_before := 0, ep := 1/2, epa := 1/2 }

/-- Second play of the C5 witness. -/
def c5_play_2 : PlayRow :=
  { game_id := "G", posteam := "B", defteam := "A",
    ep_before := 0, ep := 1/4, epa := 1/4 }

/-- Input of the C5 witness. -/
def c5_rows : List PlayRow := [c5_play_1, c5_play_2]

/-- The aggregate output row of team A in the C5 witness: offense 1/2,
defense -(1/4), net 1/4. -/
def c5_out : NetRow :=
  { game_id := "G", posteam := "A", off_epa_per_play := 1/2,
    def_epa_per_play := some (-(1/4)), net_epa_per_play := some (1/4) }

/-- C5, witness at the concrete two-play input. -/
theorem C5_aggregate_mean_net_witness :
    c5_out ∈ aggregate_net_epa c5_rows ∧
    ((0 < (offGroup c5_rows (c5_out.game_id, c5_out.posteam)).length ∧
      c5_out.off_epa_per_play =
        epaSum (offGroup c5_rows (c5_out.game_id, c5_out.posteam)) /
          ((offGroup c5_rows (c5_out.game_id, c5_out.posteam)).length : ℚ)) ∧
     (∀ d, c5_out.def_epa_per_play = some d →
       0 < (defGroup c5_rows (c5_out.game_id, c5_out.posteam)).length ∧
       d = -(epaSum (defGroup c5_rows (c5_out.game_id, c5_out.posteam)) /
             ((defGroup c5_rows (c5_out.game_id, c5_out.posteam)).length : ℚ))) ∧
     c5_out.net_epa_per_play =
       Option.map (fun x => c5_out.off_epa_per_play + x) c5_out.def_epa_per_play) := by
  have hm : c5_out ∈ aggregate_net_epa c5_rows := by
    have hvalue : aggregate_net_epa c5_rows =
        [c5_out,
         { game_id := "G", posteam := "B", off_epa_per_play := 1/4,
           def_epa_per_play := some (-(1/2)), net_epa_per_play := some (-(1/4)) }] := by
      simp [aggregate_net_epa, off_epa_table, def_epa_table, groupKeys, dedupAux,
        offGroup, defGroup, offKey, defKey, epaSum, c5_rows, c5_play_1, c5_play_2,
        c5_out, List.filter, List.find?]
      norm_num
    rw [hvalue]
    exact List.mem_cons_self _ _
  exact ⟨hm, C5_aggregate_mean_net c5_rows c5_out hm⟩

/-! Claim C10: at most one output row per (game, team) key. -/

/-- C10: for every input, the (game_id, posteam) keys of the rows of
aggregate_net_epa are pairwise distinct: the offensive groupby yields
distinct keys, and the left merge against the distinct defensive keys
produces exactly one row per offensive aggregate, so no key repeats. -/
theorem C10_output_keys_nodup (rows : List PlayRow) :
    ((aggregate_net_epa rows).map netKey).Nodup := by
  have hmap : (aggregate_net_epa rows).map netKey = groupKeys offKey rows := by
    simp only [aggregate_net_epa, off_epa_table, List.map_map]
    show List.map id (groupKeys offKey rows) = groupKeys offKey rows
    exact List.map_id _
  rw [hmap]
  exact nodup_dedupAux [] _

/-! Claim C6: the decision, confidence and bet-type thresholds. -/

theorem recommend_row_net (n : NetRow) :
    (recommend_row n).net_epa_per_play = n.net_epa_per_play := rfl

theorem recommend_row_conf (n : NetRow) :
    (recommend_row n).confidence = Option.map (fun x => |x|) n.net_epa_per_play := rfl

theorem recommend_row_bet (n : NetRow) :
    (recommend_row n).bet_favorite =
      if nanGt n.net_epa_per_play 0 then "Bet" else "Avoid" := rfl

theorem recommend_row_type (n : NetRow) :
    (recommend_row n).bet_type =
      if nanGt (Option.map (fun x => |x|) n.net_epa_per_play) (5/100)
      then "Spread" else "No Bet" := rfl

theorem nanGt_iff (x : Option ℚ) (c : ℚ) :
    nanGt x c = true ↔ ∃ v, x = some v ∧ c < v := by
  cases x with
  | none => simp [nanGt]
  | some v => simp [nanGt]

theorem ite_string_eq (b : Bool) (s t : String) (hne : t ≠ s) :
    (if b then s else t) = s ↔ b = true := by
  cases b <;> simp [hne]

/-- C6: for every row produced by generate_betting_recommendations, the
decision is Bet exactly when the net value is a number strictly greater
than 0 (a NaN net value, like a net value of exactly 0, yields Avoid);
the confidence is the absolute value of the net value, hence
non-negative whenever it is a number; and the bet-type is Spread
exactly when the confidence is a number strictly greater than 0.05
(confidence exactly 0.05 yields No Bet). -/
theorem C6_thresholds (l : List NetRow) (r : RecRow)
    (hr : r ∈ generate_betting_recommendations l) :
    (r.bet_favorite = "Bet" ↔ ∃ v, r.net_epa_per_play = some v ∧ 0 < v) ∧
    (r.net_epa_per_play = some 0 → r.bet_favorite = "Avoid") ∧
    r.confidence = Option.map (fun x => |x|) r.net_epa_per_play ∧
    (∀ c, r.confidence = some c → 0 ≤ c) ∧
    (r.bet_type = "Spread" ↔ ∃ c, r.confidence = some c ∧ 5/100 < c) ∧
    (r.confidence = some (5/100) → r.bet_type = "No Bet") := by
  simp only [generate_betting_recommendations] at hr
  obtain ⟨n, hn, rfl⟩ := List.mem_map.mp hr
  refine ⟨?_, ?_, ?_, ?_, ?_, ?_⟩
  · rw [recommend_row_bet, recommend_row_net,
      ite_string_eq _ _ _ (by decide)]
    exact nanGt_iff _ _
  · intro h
    rw [recommend_row_net] at h
    rw [recommend_row_bet, h]
    norm_num [nanGt]
  · exact recommend_row_conf n
  · intro c hc
    rw [recommend_row_conf] at hc
    rcases hx : n.net_epa_per_play with _ | v
    · rw [hx] at hc
      simp at hc
    · rw [hx] at hc
      simp only [Option.map_some', Option.some.injEq] at hc
      subst hc
      exact abs_nonneg v
  · rw [recommend_row_type, recommend_row_conf,
      ite_string_eq _ _ _ (by decide)]
    exact nanGt_iff _ _
  · intro h
    rw [recommend_row_conf] at h
    rw [recommend_row_type, h]
    norm_num [nanGt]

/-- Input row of the C6 witness: net value 0.2. -/
def c6_net_row : NetRow :=
  { game_id := "G6", posteam := "C", off_epa_per_play := 1/10,
    def_epa_per_play := some (1/10), net_epa_per_play := some (2/10) }

/-- Output row of the C6 witness: Bet with confidence 0.2, Spread. -/
def c6_rec_row : RecRow :=
  { game_id := "G6", posteam := "C", off_epa_per_play := 1/10,
    def_epa_per_play := some (1/10), net_epa_per_play := some (2/10),
    bet_favorite := "Bet", confidence := some (2/10), bet_type := "Spread" }

/-- C6, witness at a concrete singleton input. -/
theorem C6_thresholds_witness :
    c6_rec_row ∈ generate_betting_recommendations [c6_net_row] ∧
    ((c6_rec_row.bet_favorite = "Bet" ↔
        ∃ v, c6_rec_row.net_epa_per_play = some v ∧ 0 < v) ∧
     (c6_rec_row.net_epa_per_play = some 0 → c6_rec_row.bet_favorite = "Avoid") ∧
     c6_rec_row.confidence = Option.map (fun x => |x|) c6_rec_row.net_epa_per_play ∧
     (∀ c, c6_rec_row.confidence = some c → 0 ≤ c) ∧
     (c6_rec_row.bet_type = "Spread" ↔
        ∃ c, c6_rec_row.confidence = some c ∧ 5/100 < c) ∧
     (c6_rec_row.confidence = some (5/100) → c6_rec_row.bet_type = "No Bet")) := by
  have hm : c6_rec_row ∈ generate_betting_recommendations [c6_net_row] := by
    have hvalue : generate_betting_recommendations [c6_net_row] = [c6_rec_row] := by
      simp [generate_betting_recommendations, recommend_row, nanGt, c6_net_row, c6_rec_row]
      norm_num [abs_of_nonneg]
    rw [hvalue]
    exact List.mem_cons_self _ _
  exact ⟨hm, C6_thresholds [c6_net_row] c6_rec_row hm⟩

/-! Claim C7: the mock recommendations for an empty input. -/

/-- C7: on the empty input, generate_betting_recommendations outputs
exactly the two mock rows, with net 0.08 giving Bet and Spread
(confidence 0.08) and net -0.03 giving Avoid and No Bet (confidence
0.03); and the output columns are, in order: game_id, posteam,
off_epa_per_play, def_epa_per_play, net_epa_per_play, bet_favorite,
confidence, bet_type. -/
theorem C7_mock_recommendations :
    generate_betting_recommendations [] =
      [ { game_id := "MOCK_1", posteam := "TeamA", off_epa_per_play := 5/100,
          def_epa_per_play := some (3/100), net_epa_per_play := some (8/100),
          bet_favorite := "Bet", confidence := some (8/100), bet_type := "Spread" },
        { game_id := "MOCK_1", posteam := "TeamB", off_epa_per_play := -2/100,
          def_epa_per_play := some (-1/100), net_epa_per_play := some (-3/100),
          bet_favorite := "Avoid", confidence := some (3/100), bet_type := "No Bet" } ] ∧
    recommendation_columns =
      ["game_id", "posteam", "off_epa_per_play", "def_epa_per_play",
       "net_epa_per_play", "bet_favorite", "confidence", "bet_type"] := by
  refine ⟨?_, rfl⟩
  simp [generate_betting_recommendations, mock_net_epa, recommend_row, nanGt]
  norm_num [abs_of_nonneg, abs_of_nonpos]

/-! Claim C1: the end-to-end scenario with a team that never defends. -/

/-- First play of the scenario: game G1, offense A, defense B,
efficiency 0.1. -/
def c1_play_1 : PlayRow :=
  { game_id := "G1", posteam := "A", defteam := "B",
    ep_before := 0, ep := 1/10, epa := 1/10 }

/-- Second play of the scenario: game G1, offense A, defense B,
efficiency 0.3. -/
def c1_play_2 : PlayRow :=
  { game_id := "G1", posteam := "A", defteam := "B",
    ep_before := 0, ep := 3/10, epa := 3/10 }

/-- The two-play scenario input: team A has two offensive plays in G1
and never appears as a defense. -/
def c1_scenario : List PlayRow := [c1_play_1, c1_play_2]

/-- C1, counterexample: the claim states that in the scenario the
output row of team A has defensive value 0.0, net value 0.2, decision
Bet and bet-type Spread.  False: the left merge finds no defensive
aggregate for team A, writes NaN (not zero) into the defensive value,
NaN propagates into the net value, NaN compares false against 0 giving
Avoid, and abs of NaN compares false against 0.05 giving No Bet. -/
theorem C1_missing_defense_counterexample :
    (generate_betting_recommendations (aggregate_net_epa c1_scenario)).map recSummary ≠
      [(some 0, some (2/10), "Bet", "Spread")] := by
  have hvalue :
      (generate_betting_recommendations (aggregate_net_epa c1_scenario)).map recSummary =
        [(none, none, "Avoid", "No Bet")] := by
    simp [generate_betting_recommendations, aggregate_net_epa, off_epa_table,
      def_epa_table, groupKeys, dedupAux, offGroup, defGroup, offKey, defKey, epaSum,
      c1_scenario, c1_play_1, c1_play_2, recommend_row, nanGt, recSummary,
      List.filter, List.find?]
  rw [hvalue]
  simp

/-- C1, amended: in the scenario, the output row of team A has
offensive per-play value 0.2 as claimed, but the absent defensive
aggregate does not contribute zero: the defensive and net values are
absent (NaN), the decision is Avoid, the confidence is absent (NaN) and
the bet-type is No Bet. -/
theorem C1_missing_defense_amended :
    generate_betting_recommendations (aggregate_net_epa c1_scenario) =
      [ { game_id := "G1", posteam := "A", off_epa_per_play := 2/10,
          def_epa_per_play := none, net_epa_per_play := none,
          bet_favorite := "Avoid", confidence := none, bet_type := "No Bet" } ] := by
  simp [generate_betting_recommendations, aggregate_net_epa, off_epa_table,
    def_epa_table, groupKeys, dedupAux, offGroup, defGroup, offKey, defKey, epaSum,
    c1_scenario, c1_play_1, c1_play_2, recommend_row, nanGt, List.filter, List.find?]
  norm_num

/-! Claim C8: the single-fallback behaviour of fetch_pbp_data. -/

/-- C8: for every upstream source and season, if the request succeeds
with a non-empty collection then that collection is returned unchanged
after a single request, and if the request raises or returns an empty
collection then exactly one further request is made, for the fixed
fallback season 2024, and whatever that request produces is returned
(even an empty collection, with no error raised by fetch itself and no
further fallback or retry). -/
theorem C8_fetch_fallback (upstream : ℤ → Except String PbpFrame) (season : ℤ) :
    (∀ d, upstream season = Except.ok d → d.rows ≠ [] →
      fetch_pbp_data upstream season = (Except.ok d, [season])) ∧
    (∀ err, upstream season = Except.error err →
      fetch_pbp_data upstream season =
        (upstream LATEST_AVAILABLE_SEASON, [season, LATEST_AVAILABLE_SEASON])) ∧
    (∀ d, upstream season = Except.ok d → d.rows = [] →
      fetch_pbp_data upstream season =
        (upstream LATEST_AVAILABLE_SEASON, [season, LATEST_AVAILABLE_SEASON])) := by
  refine ⟨?_, ?_, ?_⟩
  · intro d hok hne
    have h0 : d.rows.isEmpty = false := by
      simpa [List.isEmpty_iff] using hne
    simp [fetch_pbp_data, hok, h0]
  · intro err herr
    simp [fetch_pbp_data, herr]
  · intro d hok hnil
    simp [fetch_pbp_data, hok, hnil]

/-- The frame returned by the fallback request in the C8 witness. -/
def c8_fallback_frame : PbpFrame :=
  { hasGameId := true, hasPosteam := true, hasDefteam := true,
    hasEpBefore := true, hasEp := true, hasEpa := false, rows := [] }

/-- A concrete upstream source that raises for every season except
2024. -/
def c8_upstream (s : ℤ) : Except String PbpFrame :=
  if s = 2024 then Except.ok c8_fallback_frame
  else Except.error "Data not available for this season"

/-- C8, witness: requesting 2025 raises, and fetch returns the fallback
data of season 2024 with the two-request trace. -/
theorem C8_fetch_fallback_witness :
    c8_upstream 2025 = Except.error "Data not available for this season" ∧
    fetch_pbp_data c8_upstream 2025 =
      (Except.ok c8_fallback_frame, [2025, 2024]) := by
  refine ⟨rfl, ?_⟩
  have h := (C8_fetch_fallback c8_upstream 2025).2.1
      "Data not available for this season" rfl
  rw [h]
  norm_num [c8_upstream, LATEST_AVAILABLE_SEASON]

/-! Claim C9: generate_betting_recommendations leaves its input frame
unchanged. -/

theorem heapGet_cons_ne (h : Heap) (p : ℕ × DfVal) (a : ℕ) (hne : p.1 ≠ a) :
    heapGet (p :: h) a = heapGet h a := by
  simp [heapGet, hne]

theorem heapGet_heapSet_ne (h : Heap) (c a : ℕ) (v : DfVal) (hne : c ≠ a) :
    heapGet (heapSet h c v) a = heapGet h a := by
  induction h with
  | nil => rfl
  | cons p t ih =>
    by_cases hp : p.1 = c
    · have hpa : p.1 ≠ a := by
        rw [hp]
        exact hne
      simp only [heapSet, List.map_cons, if_pos hp, heapGet, if_neg hne, if_neg hpa]
      exact ih
    · simp only [heapSet, List.map_cons, if_neg hp, heapGet]
      by_cases hpa : p.1 = a
      · simp [if_pos hpa]
      · simp only [if_neg hpa]
        exact ih

theorem le_foldr_max (a : ℕ) (l : List ℕ) (h : a ∈ l) :
    a ≤ l.foldr max 0 := by
  induction l with
  | nil => cases h
  | cons x t ih =>
    rcases List.mem_cons.mp h with rfl | h
    · exact le_max_left _ _
    · exact le_trans (ih h) (le_max_right _ _)

theorem heapGet_lt_freshAddr (h : Heap) (a : ℕ) (v : DfVal)
    (hv : heapGet h a = some v) : a < freshAddr h := by
  induction h with
  | nil => cases hv
  | cons p t ih =>
    simp only [heapGet] at hv
    have hfold : freshAddr (p :: t) =
        max p.1 ((t.map Prod.fst).foldr max 0) + 1 := rfl
    by_cases hpa : p.1 = a
    · rw [hfold]
      refine Nat.lt_succ_of_le ?_
      rw [← hpa]
      exact le_max_left _ _
    · rw [if_neg hpa] at hv
      have ha := ih hv
      rw [hfold]
      refine Nat.lt_succ_of_le ?_
      exact le_trans (Nat.lt_succ_iff.mp ha) (le_max_right _ _)

theorem heapNetRows_cons_self (t : Heap) (c : ℕ) (rows : List NetRow) :
    heapNetRows ((c, DfVal.netFrame rows) :: t) c = rows := by
  simp [heapNetRows, heapGet]

/-- C9: generate_betting_recommendations copies the input frame before
writing any column, so the input is unchanged by the call: whatever
object the input address held before the call, it still holds after
it.  The second conjunct checks that the heap-level function returns
the same rows as the pure one. -/
theorem C9_input_unchanged (h : Heap) (a : ℕ) (v : DfVal)
    (hv : heapGet h a = some v) :
    heapGet (generate_betting_recommendations_heap h a).1 a = some v ∧
    (generate_betting_recommendations_heap h a).2 =
      generate_betting_recommendations (heapNetRows h a) := by
  have hlt : a < freshAddr h := heapGet_lt_freshAddr h a v hv
  have hbne : (freshAddr h, DfVal.netFrame (heapNetRows h a)).1 ≠ a := by
    simp only []
    omega
  have hv1 : heapGet ((freshAddr h, DfVal.netFrame (heapNetRows h a)) :: h) a = some v := by
    rw [heapGet_cons_ne h _ a hbne]
    exact hv
  by_cases hempty : (heapNetRows h a).isEmpty
  · have hc := heapGet_lt_freshAddr _ a v hv1
    have hcne :
        freshAddr ((freshAddr h, DfVal.netFrame (heapNetRows h a)) :: h) ≠ a := by
      omega
    constructor
    · simp only [generate_betting_recommendations_heap, hempty, if_true]
      rw [heapGet_heapSet_ne _ _ _ _ hcne]
      rw [heapGet_cons_ne _ _ _ (by simpa using hcne)]
      exact hv1
    · simp only [generate_betting_recommendations_heap, hempty, if_true]
      rw [heapNetRows_cons_self]
      simp [generate_betting_recommendations, hempty]
  · constructor
    · simp only [generate_betting_recommendations_heap, hempty, if_false,
        Bool.false_eq_true]
      rw [heapGet_heapSet_ne _ _ _ _ (by simpa using hbne)]
      exact hv1
    · simp only [generate_betting_recommendations_heap, hempty, if_false,
        Bool.false_eq_true]
      rw [heapNetRows_cons_self]
      simp [generate_betting_recommendations, hempty]

/-- Concrete heap of the C9 witness: one net frame at address 0. -/
def c9_heap : Heap := [(0, DfVal.netFrame [])]

/-- C9, witness at the concrete one-object heap. -/
theorem C9_input_unchanged_witness :
    heapGet c9_heap 0 = some (DfVal.netFrame []) ∧
    (heapGet (generate_betting_recommendations_heap c9_heap 0).1 0 =
       some (DfVal.netFrame []) ∧
     (generate_betting_recommendations_heap c9_heap 0).2 =
       generate_betting_recommendations (heapNetRows c9_heap 0)) :=
  ⟨rfl, C9_input_unchanged c9_heap 0 (DfVal.netFrame []) rfl⟩
